import Mathlib

/-!
Verification model of the napalm-cumulus configuration transaction engine
(`src/napalm_cumulus/cumulus.py`).

The driver talks to a switch over a synchronous text channel: each command
sent receives exactly one textual response.  We embed the driver state
(`use_nvue`, `force`, `loaded`, `changed` flags) together with the channel
as a `World`: the device is an oracle given by the list of responses it
will return, in order, to the commands the driver sends; the model also
logs every command sent.  Python string idioms used by the driver
(`in`, `split(sep)`, `strip`, `splitlines`, `split()`, and the ANSI
colour-code regex substitution) are embedded as executable functions over
`List Char`.
-/

namespace Cumulus

/-- Boolean test that `pat` is a prefix of `l` (Python slice comparison). -/
def isPre : List Char → List Char → Bool
  | [], _ => true
  | _ :: _, [] => false
  | a :: as, b :: bs => a = b && isPre as bs

/-- Locate the first occurrence of `sep` in a character list: returns the
characters before the occurrence and the characters after it, or `none`
when `sep` does not occur. -/
def findSplit (sep : List Char) : List Char → Option (List Char × List Char)
  | [] => none
  | c :: rest =>
    if isPre sep (c :: rest) then some ([], (c :: rest).drop sep.length)
    else
      match findSplit sep rest with
      | none => none
      | some (pre, post) => some (c :: pre, post)

/-- Python `pat in s` (substring containment, for nonempty `pat`). -/
def strContains (s pat : String) : Bool :=
  (findSplit pat.toList s.toList).isSome

/-- Python `s.split(sep)[0]`: the text before the first occurrence of
`sep`, or all of `s` when `sep` does not occur. -/
def beforeFirst (s sep : String) : String :=
  match findSplit sep.toList s.toList with
  | none => s
  | some (pre, _) => String.mk pre

/-- Python `s.split(sep)[1]`: the text between the first and second
occurrences of `sep` (to the end when there is no second occurrence);
`none` when `sep` does not occur at all, in which case Python raises
`IndexError`. -/
def pyIndex1 (s sep : String) : Option String :=
  match findSplit sep.toList s.toList with
  | none => none
  | some (_, post) => some (beforeFirst (String.mk post) sep)

/-- Python `s.strip()`: drop leading and trailing whitespace. -/
def pyStrip (s : String) : String :=
  String.mk (((s.toList.dropWhile Char.isWhitespace).reverse.dropWhile
      Char.isWhitespace).reverse)

/-- Python `s.strip(c)`: drop leading and trailing copies of `c`. -/
def pyStripChar (s : String) (c : Char) : String :=
  String.mk (((s.toList.dropWhile (· = c)).reverse.dropWhile (· = c)).reverse)

/-- Split a character list at every character satisfying `p`
(separators are consumed; empty segments are kept). -/
def splitAllP (p : Char → Bool) : List Char → List (List Char)
  | [] => [[]]
  | c :: rest =>
    if p c then [] :: splitAllP p rest
    else
      match splitAllP p rest with
      | [] => [[c]]
      | h :: t => (c :: h) :: t

/-- Python `s.splitlines()` restricted to `\n` line boundaries: like
splitting on `\n` but without a trailing empty segment, and `[]` on the
empty string. -/
def splitlines (s : String) : List String :=
  match s.toList with
  | [] => []
  | l =>
    let parts := splitAllP (fun c => c = '\n') l
    (if parts.getLast? = some [] then parts.dropLast else parts).map String.mk

/-- Python `s.split()` with no argument: split on whitespace runs,
dropping empty segments. -/
def pySplitWs (s : String) : List String :=
  ((splitAllP Char.isWhitespace s.toList).filter (fun l => l ≠ [])).map
    String.mk

/-- Scanner state while deleting ANSI colour codes: outside any candidate
match, just after `\x1b`, or after `\x1b[` having read the digits `ds`
(most recent first). -/
inductive AnsiState where
  | norm
  | esc
  | escBr (ds : List Char)

/-- One-pass scanner deleting every occurrence of the pattern
`\x1b\[\d+m`, leftmost first (the effect of Python `re.sub` with an empty
replacement, cumulus.py:161). -/
def dropAnsiAux : AnsiState → List Char → List Char
  | .norm, [] => []
  | .norm, c :: rest =>
    if c = '\x1b' then dropAnsiAux .esc rest
    else c :: dropAnsiAux .norm rest
  | .esc, [] => ['\x1b']
  | .esc, c :: rest =>
    if c = '[' then dropAnsiAux (.escBr []) rest
    else if c = '\x1b' then '\x1b' :: dropAnsiAux .esc rest
    else '\x1b' :: c :: dropAnsiAux .norm rest
  | .escBr ds, [] => '\x1b' :: '[' :: ds.reverse
  | .escBr ds, c :: rest =>
    if c.isDigit then dropAnsiAux (.escBr (c :: ds)) rest
    else if c = 'm' && !ds.isEmpty then dropAnsiAux .norm rest
    else if c = '\x1b' then
      ('\x1b' :: '[' :: ds.reverse) ++ dropAnsiAux .esc rest
    else
      ('\x1b' :: '[' :: ds.reverse) ++ (c :: dropAnsiAux .norm rest)

/-- Remove every occurrence of the pattern `\x1b\[\d+m` from a character
list. -/
def dropAnsi (l : List Char) : List Char :=
  dropAnsiAux .norm l

/-- `re.sub(a-regex-for-ANSI-colour-codes, empty, s)` on strings. -/
def ansiStrip (s : String) : String :=
  String.mk (dropAnsi s.toList)

/-- The driver's mutable flags (cumulus.py:55-59).  `use_nvue` selects the
declarative (NVUE) dialect, `force` answers interactive confirmations,
`loaded` is true while a candidate is staged, `changed` is true once a
commit has succeeded in this session. -/
structure Session where
  use_nvue : Bool
  force : Bool
  loaded : Bool
  changed : Bool
deriving DecidableEq, Repr

/-- Driver state together with the channel: `resps` is the oracle of
responses the device will give to successive commands, `sent` the log of
commands sent so far. -/
structure World where
  session : Session
  resps : List String
  sent : List String
deriving DecidableEq, Repr

/-- `self._send_command(command)` (cumulus.py:193-194): send one command,
read one response.  Consumes the next oracle response (empty string once
the oracle is exhausted) and logs the command. -/
def send_command (command : String) (w : World) : String × World :=
  (w.resps.headD "",
   { w with resps := w.resps.tail, sent := w.sent ++ [command] })

/-- Outcome of `load_merge_candidate`: normal return, or a
`MergeConfigException` with its message. -/
inductive LoadResult where
  | ok
  | mergeError (msg : String)
deriving DecidableEq, Repr

/-- The abort test of cumulus.py:142:
`"error" in output or "not found" in output`. -/
def bad_response (output : String) : Bool :=
  strContains output "error" || strContains output "not found"

/-- The command loop of `load_merge_candidate` (cumulus.py:138-143): send
each candidate line in order; a response containing an error marker
raises `MergeConfigException` naming the offending command and stops the
loop.  (The `if 'sudo' not in command` branch at cumulus.py:139-140 only
re-formats `command` to itself and is omitted as a no-op.) -/
def load_loop : List String → World → LoadResult × World
  | [], w => (.ok, w)
  | command :: rest, w =>
    let (output, w₁) := send_command command w
    if bad_response output then
      (.mergeError ("Command \x27" ++ command ++ "\x27 cannot be applied."),
       w₁)
    else load_loop rest w₁

/-- `load_merge_candidate` (cumulus.py:122-143) restricted to inline
`config` content given as a list of lines (`filename` is `None`; reading
a file is outside the model, and a non-list `config` string becomes a
singleton list at cumulus.py:134-135).  `none` or an empty list is falsy
in Python, so it raises the invalid-input `MergeConfigException` before
`self.loaded` is touched; otherwise `loaded` is set before the loop and
empty lines are filtered out. -/
def load_merge_candidate (config : Option (List String)) (w : World) :
    LoadResult × World :=
  match config with
  | none => (.mergeError "filename or config param must be provided.", w)
  | some candidate =>
    if candidate = [] then
      (.mergeError "filename or config param must be provided.", w)
    else
      let w₁ := { w with session := { w.session with loaded := true } }
      load_loop (candidate.filter (fun line => line ≠ "")) w₁

/-- `discard_config` (cumulus.py:145-151): when a candidate is loaded,
send the dialect-specific abort command and clear `loaded`
unconditionally; otherwise do nothing. -/
def discard_config (w : World) : World :=
  if w.session.loaded then
    if w.session.use_nvue then
      let (_, w₁) := send_command "nv config detach" w
      { w₁ with session := { w₁.session with loaded := false } }
    else
      let (_, w₁) := send_command "net abort" w
      { w₁ with session := { w₁.session with loaded := false } }
  else w

/-- `compare_config` (cumulus.py:153-162).  In the legacy branch the text
before the `"net add/del commands"` marker, stripped, only decides
whether there is a real diff; when there is, the value returned is the
whole `net pending` output with ANSI colour codes removed. -/
def compare_config (w : World) : String × World :=
  if w.session.loaded && w.session.use_nvue then
    send_command "nv config diff --color off" w
  else if w.session.loaded then
    let (full_diff, w₁) := send_command "net pending" w
    let trimmed_diff := pyStrip (beforeFirst full_diff "net add/del commands")
    if trimmed_diff ≠ "" then (ansiStrip full_diff, w₁)
    else ("", w₁)
  else ("", w)

/-- Outcome of `commit_config`: normal return, a `MergeConfigException`
with its message, or the `IndexError` Python raises at cumulus.py:175
when `response.split("Warning:")` has no element 1. -/
inductive CommitResult where
  | ok
  | mergeError (msg : String)
  | indexError
deriving DecidableEq, Repr

/-- The unconditional tail of `commit_config` (cumulus.py:179-180):
`self.changed = True; self.loaded = False`. -/
def commit_done (w : World) : World :=
  { w with session := { w.session with changed := true, loaded := false } }

/-- `commit_config` (cumulus.py:164-180).  No-op when nothing is loaded.
Under NVUE, a response to `nv config apply` containing `"[y/N]"` is an
interactive confirmation: with `force` it is answered `y`, otherwise it
is answered `n`, the candidate is discarded, and a `MergeConfigException`
is raised whose message embeds the text between `"Warning:"` and
`"Are you"` (an `IndexError` instead when `"Warning:"` is absent).  The
legacy dialect commits with a single `net commit`. -/
def commit_config (w : World) : CommitResult × World :=
  if w.session.loaded = false then (.ok, w)
  else if w.session.use_nvue then
    let (response, w₁) := send_command "nv config apply" w
    if strContains response "[y/N]" then
      if w.session.force then
        let (_, w₂) := send_command "y" w₁
        (.ok, commit_done w₂)
      else
        let (_, w₂) := send_command "n" w₁
        let w₃ := discard_config w₂
        match pyIndex1 response "Warning:" with
        | none => (.indexError, w₃)
        | some seg =>
          let err_msg := pyStrip (beforeFirst seg "Are you")
          (.mergeError ("Config cannot be applied. " ++ err_msg), w₃)
    else (.ok, commit_done w₁)
  else
    let (_, w₁) := send_command "net commit" w
    (.ok, commit_done w₁)

/-- Outcome of `rollback`: normal return, or the `IndexError` Python
raises at cumulus.py:187 when the revision history has fewer than two
lines or the second line fewer than two whitespace-separated fields. -/
inductive RollbackResult where
  | ok
  | indexError
deriving DecidableEq, Repr

/-- `rollback` (cumulus.py:182-191): nothing happens unless a commit
succeeded earlier (`changed`).  Under NVUE the revision history is
fetched, the second line's second field (quotes stripped) is the
previous revision, and it is re-applied; the legacy dialect rolls back
with a single command.  On completion `changed` is cleared. -/
def rollback (w : World) : RollbackResult × World :=
  if w.session.changed then
    if w.session.use_nvue then
      let (history_output, w₁) :=
        send_command "nv config history |grep rev_id:" w
      let rev_history := splitlines history_output
      match rev_history[1]? with
      | none => (.indexError, w₁)
      | some line =>
        match (pySplitWs line)[1]? with
        | none => (.indexError, w₁)
        | some field =>
          let previous_rev := pyStripChar field '\x27'
          let (_, w₂) :=
            send_command ("nv config apply " ++ previous_rev) w₁
          (.ok, { w₂ with session := { w₂.session with changed := false } })
    else
      let (_, w₁) := send_command "net rollback last" w
      (.ok, { w₁ with session := { w₁.session with changed := false } })
  else (.ok, w)

/-- The structured-output acquisition skeleton shared by `get_facts`
(cumulus.py:220-225), `get_interfaces` (cumulus.py:535-540) and the other
JSON queries: send the command, try to parse the response; on a parse
failure re-send and re-parse once, the second failure propagating as the
malformed-output error (`parse` stands for `json.loads`, with `none` for
`ValueError`; the retry read uses the device's plain `send_command`,
modelled like `_send_command` as consuming the next oracle response). -/
def fetch_structured {J : Type} (parse : String → Option J)
    (command : String) (w : World) : Option J × World :=
  let (output, w₁) := send_command command w
  match parse output with
  | some v => (some v, w₁)
  | none =>
    let (output2, w₂) := send_command command w₁
    (parse output2, w₂)

/-! ### Helper lemmas -/

theorem headD_eq_getD (l : List String) (d : String) : l.headD d = l.getD 0 d := by
  cases l <;> rfl

theorem getD_tail (l : List String) (n : Nat) (d : String) :
    l.tail.getD n d = l.getD (n + 1) d := by
  cases l <;> rfl

theorem drop_tail (l : List String) (n : Nat) :
    l.tail.drop n = l.drop (n + 1) := by
  cases l <;> simp

theorem send_command_session (c : String) (w : World) :
    ((send_command c w).2).session = w.session := rfl

theorem load_loop_session (cs : List String) (w : World) :
    (load_loop cs w).2.session = w.session := by
  induction cs generalizing w with
  | nil => rfl
  | cons c rest ih =>
    by_cases h : bad_response (w.resps.headD "") = true
    · rw [List.headD_eq_head?] at h
      simp [load_loop, send_command, h]
    · simp only [Bool.not_eq_true] at h
      rw [List.headD_eq_head?] at h
      simp [load_loop, send_command, h, ih]

theorem compare_config_of_not_loaded (w : World)
    (h : w.session.loaded = false) : compare_config w = ("", w) := by
  simp [compare_config, h]

theorem rollback_of_not_changed (w : World)
    (h : w.session.changed = false) :
    rollback w = (RollbackResult.ok, w) := by
  simp [rollback, h]

theorem discard_config_unloads (w : World) :
    (discard_config w).session.loaded = false := by
  by_cases hl : w.session.loaded
  · by_cases hn : w.session.use_nvue <;>
      simp [discard_config, send_command, hl, hn]
  · simp only [Bool.not_eq_true] at hl
    simp [discard_config, hl]

/-! ### Claim theorems -/

/-- C1 counterexample: in the Loaded state under the legacy dialect, the
raw output `"+ interface swp1\nnet add/del commands\n..."` is returned
whole (ANSI-stripped); the text from the `"net add/del commands"` marker
onward is not removed, so the result is not `"+ interface swp1"`. -/
theorem compare_marker_counterexample :
    (compare_config ⟨⟨false, false, true, false⟩,
        ["+ interface swp1\nnet add/del commands\n..."], []⟩).1
      = "+ interface swp1\nnet add/del commands\n..."
    ∧ (compare_config ⟨⟨false, false, true, false⟩,
        ["+ interface swp1\nnet add/del commands\n..."], []⟩).1
      ≠ "+ interface swp1" := by decide

/-- C1 (amended): for every legacy-dialect Compare in the Loaded state
whose raw output has non-empty diff text before the
`"net add/del commands"` marker, the returned diff text is the whole raw
output with ANSI colour-escape sequences stripped; the text before the
marker only decides, after stripping, whether the diff is empty. -/
theorem compare_loaded_legacy_full_output (w : World)
    (hl : w.session.loaded = true) (hn : w.session.use_nvue = false)
    (ht : pyStrip (beforeFirst (w.resps.headD "") "net add/del commands")
        ≠ "") :
    compare_config w =
      (ansiStrip (w.resps.headD ""),
       { w with resps := w.resps.tail, sent := w.sent ++ ["net pending"] }) := by
  simp only [List.headD_eq_head?] at ht ⊢
  simp [compare_config, send_command, hl, hn, ht]

/-- Witness for C1's amended theorem: a coloured one-line diff followed by
the marker section. -/
theorem compare_loaded_legacy_full_output_witness :
    compare_config ⟨⟨false, false, true, false⟩,
        ["\x1b[32m+ interface swp1\x1b[0m\nnet add/del commands\n..."], []⟩
      = ("+ interface swp1\nnet add/del commands\n...",
         ⟨⟨false, false, true, false⟩, [], ["net pending"]⟩) :=
  (compare_loaded_legacy_full_output
      ⟨⟨false, false, true, false⟩,
       ["\x1b[32m+ interface swp1\x1b[0m\nnet add/del commands\n..."], []⟩
      rfl rfl (by decide)).trans (by decide)

/-- C2 (confirmed): for every legacy-dialect Compare in the Loaded state
whose raw output, before the `"net add/del commands"` marker and after
stripping, is empty, the returned diff text is the empty string. -/
theorem compare_noop_marker_empty (w : World)
    (hl : w.session.loaded = true) (hn : w.session.use_nvue = false)
    (ht : pyStrip (beforeFirst (w.resps.headD "") "net add/del commands")
        = "") :
    (compare_config w).1 = "" := by
  simp only [List.headD_eq_head?] at ht
  simp [compare_config, send_command, hl, hn, ht]

/-- Witness for C2: raw output that is exactly the marker section. -/
theorem compare_noop_marker_empty_witness :
    (compare_config ⟨⟨false, false, true, false⟩,
        ["net add/del commands\nsome ignored junk"], []⟩).1 = "" :=
  compare_noop_marker_empty
    ⟨⟨false, false, true, false⟩,
     ["net add/del commands\nsome ignored junk"], []⟩
    rfl rfl (by decide)

/-- C5 (confirmed): `load_merge_candidate` with inline content (a truthy
candidate list) sets `loaded` before sending any line and never clears
it, so even a load aborted by a rejected line leaves the session in the
Loaded state with all other flags unchanged. -/
theorem load_leaves_loaded (cand : List String) (w : World)
    (h : cand ≠ []) :
    (load_merge_candidate (some cand) w).2.session =
      { w.session with loaded := true } := by
  simp [load_merge_candidate, h, load_loop_session]

/-- Witness for C5: a load whose single line is rejected still leaves
`loaded` true. -/
theorem load_leaves_loaded_witness :
    (load_merge_candidate (some ["net add bogus"])
        ⟨⟨false, false, false, false⟩, ["error: invalid"], []⟩).2.session
      = ⟨false, false, true, false⟩ :=
  (load_leaves_loaded ["net add bogus"]
      ⟨⟨false, false, false, false⟩, ["error: invalid"], []⟩
      (by decide)).trans (by decide)

/-- C7 (confirmed): for every dialect, Discard in the Loaded state sends
the dialect-specific abort command and unconditionally clears `loaded`
(whatever the abort's output); Discard in any state leaves `loaded`
false, so a Compare after any Load-then-Discard returns the empty string
and changes nothing. -/
theorem discard_unconditionally_idle (w : World)
    (cfg : Option (List String)) :
    (discard_config w).session.loaded = false
    ∧ (w.session.loaded = true →
        discard_config w =
          { w with
            session := { w.session with loaded := false },
            resps := w.resps.tail,
            sent := w.sent ++
              [if w.session.use_nvue then "nv config detach"
               else "net abort"] })
    ∧ compare_config (discard_config (load_merge_candidate cfg w).2) =
        ("", discard_config (load_merge_candidate cfg w).2) := by
  refine ⟨discard_config_unloads w, ?_, ?_⟩
  · intro hl
    by_cases hn : w.session.use_nvue <;>
      simp [discard_config, send_command, hl, hn]
  · exact compare_config_of_not_loaded _ (discard_config_unloads _)

/-- Witness for C7 on a legacy-dialect session with a loaded candidate. -/
theorem discard_unconditionally_idle_witness :
    (discard_config
        ⟨⟨false, false, true, false⟩, ["out1", "out2"], []⟩).session.loaded
      = false
    ∧ discard_config ⟨⟨false, false, true, false⟩, ["out1", "out2"], []⟩
        = ⟨⟨false, false, false, false⟩, ["out2"], ["net abort"]⟩
    ∧ compare_config (discard_config
          (load_merge_candidate (some ["net add vlan 7"])
            ⟨⟨false, false, true, false⟩, ["out1", "out2"], []⟩).2)
        = ("", discard_config
            (load_merge_candidate (some ["net add vlan 7"])
              ⟨⟨false, false, true, false⟩, ["out1", "out2"], []⟩).2) := by
  have h := discard_unconditionally_idle
    ⟨⟨false, false, true, false⟩, ["out1", "out2"], []⟩
    (some ["net add vlan 7"])
  exact ⟨h.1, (h.2.1 rfl).trans (by decide), h.2.2⟩

/-- C8 (confirmed): for every dialect, Compare with no candidate loaded
returns the empty string and leaves the world unchanged; calling it
again still returns empty and changes nothing. -/
theorem compare_idle_idempotent (w : World)
    (h : w.session.loaded = false) :
    compare_config w = ("", w)
    ∧ compare_config ((compare_config w).2) = ("", w) := by
  have h1 := compare_config_of_not_loaded w h
  exact ⟨h1, by rw [h1]; exact h1⟩

/-- Witness for C8 at a concrete idle NVUE session. -/
theorem compare_idle_idempotent_witness :
    compare_config ⟨⟨true, true, false, true⟩, ["leftover"], []⟩
        = ("", ⟨⟨true, true, false, true⟩, ["leftover"], []⟩)
    ∧ compare_config
          ((compare_config ⟨⟨true, true, false, true⟩, ["leftover"], []⟩).2)
        = ("", ⟨⟨true, true, false, true⟩, ["leftover"], []⟩) :=
  compare_idle_idempotent ⟨⟨true, true, false, true⟩, ["leftover"], []⟩ rfl

/-- C9 (confirmed): when no commit has succeeded in the session
(`changed` false), `rollback` returns silently, sends nothing, and
leaves the whole state unchanged. -/
theorem rollback_no_commit_noop (w : World)
    (h : w.session.changed = false) :
    rollback w = (RollbackResult.ok, w) := by
  simp [rollback, h]

/-- Witness for C9 at a concrete session that never committed. -/
theorem rollback_no_commit_noop_witness :
    rollback ⟨⟨true, true, true, false⟩, ["resp"], ["earlier"]⟩
      = (RollbackResult.ok,
         ⟨⟨true, true, true, false⟩, ["resp"], ["earlier"]⟩) :=
  rollback_no_commit_noop
    ⟨⟨true, true, true, false⟩, ["resp"], ["earlier"]⟩ rfl

theorem load_loop_first_bad (cs : List String) :
    ∀ (i : Nat) (w : World), i < cs.length →
    bad_response (w.resps.getD i "") = true →
    (∀ j, j < i → bad_response (w.resps.getD j "") = false) →
    load_loop cs w =
      (LoadResult.mergeError
         ("Command \x27" ++ cs.getD i "" ++ "\x27 cannot be applied."),
       { session := w.session, resps := w.resps.drop (i + 1),
         sent := w.sent ++ cs.take (i + 1) }) := by
  induction cs with
  | nil =>
    intro i w hi _ _
    simp at hi
  | cons c rest ih =>
    intro i w hi hbad hgood
    obtain ⟨sess, resps, sentl⟩ := w
    cases resps with
    | nil =>
      have hb : bad_response "" = true := by simpa using hbad
      exact absurd hb (by decide)
    | cons r rs =>
      match i with
      | 0 =>
        have hb : bad_response r = true := by simpa using hbad
        simp [load_loop, send_command, hb]
      | i' + 1 =>
        have h0 : bad_response r = false := by
          simpa using hgood 0 (Nat.succ_pos i')
        have hrec := ih i' ⟨sess, rs, sentl ++ [c]⟩
          (Nat.lt_of_succ_lt_succ hi)
          (by simpa using hbad)
          (fun j hj => by simpa using hgood (j + 1) (Nat.succ_lt_succ hj))
        simp [load_loop, send_command, h0, hrec]

/-- C4 (confirmed): a Load of inline candidate lines (all non-empty)
whose `i`-th line is the first to draw a response containing `"error"`
or `"not found"` stops there: it raises the `MergeConfigException`
naming that command, the lines up to and including line `i` are exactly
the commands sent (earlier lines are not retracted), and no later line
is sent. -/
theorem load_aborts_at_first_bad_line (cand : List String) (i : Nat)
    (w : World)
    (hne : cand ≠ [])
    (hall : ∀ c ∈ cand, c ≠ "")
    (hi : i < cand.length)
    (hbad : bad_response (w.resps.getD i "") = true)
    (hgood : ∀ j, j < i → bad_response (w.resps.getD j "") = false) :
    load_merge_candidate (some cand) w =
      (LoadResult.mergeError
         ("Command \x27" ++ cand.getD i "" ++ "\x27 cannot be applied."),
       { session := { w.session with loaded := true },
         resps := w.resps.drop (i + 1),
         sent := w.sent ++ cand.take (i + 1) }) := by
  have hfilter : cand.filter (fun line => line ≠ "") = cand := by
    rw [List.filter_eq_self]
    intro a ha
    simpa using hall a ha
  simp only [load_merge_candidate, hne, if_neg, hfilter]
  exact load_loop_first_bad cand i
    ⟨{ w.session with loaded := true }, w.resps, w.sent⟩ hi hbad hgood

/-- Witness for C4: the second line draws an error response; exactly the
first two lines are sent and the third never is. -/
theorem load_aborts_at_first_bad_line_witness :
    load_merge_candidate
        (some ["net add interface swp1", "net add bogus thing",
               "net add vlan 9"])
        ⟨⟨false, false, false, false⟩, ["", "error: bogus", "ok"], []⟩
      = (LoadResult.mergeError
           "Command \x27net add bogus thing\x27 cannot be applied.",
         ⟨⟨false, false, true, false⟩, ["ok"],
          ["net add interface swp1", "net add bogus thing"]⟩) := by
  have h := load_aborts_at_first_bad_line
    ["net add interface swp1", "net add bogus thing", "net add vlan 9"] 1
    ⟨⟨false, false, false, false⟩, ["", "error: bogus", "ok"], []⟩
    (by decide) (by decide) (by decide) (by decide)
    (fun j hj => by
      have hj0 : j = 0 := Nat.lt_one_iff.mp hj
      subst hj0
      decide)
  exact h.trans (by decide)

/-- C3 counterexample: a declined NVUE commit whose apply response
contains `"[y/N]"` but no `"Warning:"` marker ends in the `IndexError`
of `response.split("Warning:")[1]`, not in a `MergeConfigException`. -/
theorem commit_declined_missing_warning :
    (commit_config ⟨⟨true, false, true, false⟩,
        ["apply? [y/N] ", "", ""], []⟩).1 = CommitResult.indexError := by
  decide

/-- C3 (amended): for every NVUE commit in the Loaded state with `force`
false whose apply response contains `"[y/N]"` and also contains the
`"Warning:"` marker (`seg` being the text following it, up to any second
marker), the driver answers `n`, discards the candidate (sending
`nv config detach`), and raises the `MergeConfigException` whose message
embeds the warning text cut at `"Are you"` and stripped; afterwards
`loaded` is false. -/
theorem commit_declined_merge_rejected (w : World) (seg : String)
    (hl : w.session.loaded = true) (hn : w.session.use_nvue = true)
    (hf : w.session.force = false)
    (hy : strContains (w.resps.headD "") "[y/N]" = true)
    (hW : pyIndex1 (w.resps.headD "") "Warning:" = some seg) :
    commit_config w =
      (CommitResult.mergeError
         ("Config cannot be applied. " ++ pyStrip (beforeFirst seg "Are you")),
       { session := { w.session with loaded := false },
         resps := w.resps.tail.tail.tail,
         sent := w.sent ++ ["nv config apply", "n", "nv config detach"] }) := by
  obtain ⟨sess, resps, sentl⟩ := w
  have hl' : sess.loaded = true := hl
  have hn' : sess.use_nvue = true := hn
  have hf' : sess.force = false := hf
  cases resps with
  | nil =>
    have hy' : strContains "" "[y/N]" = true := by simpa using hy
    exact absurd hy' (by decide)
  | cons r rs =>
    have hy' : strContains r "[y/N]" = true := by simpa using hy
    have hW' : pyIndex1 r "Warning:" = some seg := by simpa using hW
    simp [commit_config, send_command, discard_config, hl', hn', hf',
      hy', hW']

/-- Witness for C3's amended theorem: a confirmation response carrying a
warning between the two markers. -/
theorem commit_declined_merge_rejected_witness :
    commit_config ⟨⟨true, false, true, false⟩,
        ["blah Warning: this is disruptive Are you sure? [y/N]", "", ""],
        []⟩
      = (CommitResult.mergeError
           "Config cannot be applied. this is disruptive",
         ⟨⟨true, false, false, false⟩, [],
          ["nv config apply", "n", "nv config detach"]⟩) :=
  (commit_declined_merge_rejected
      ⟨⟨true, false, true, false⟩,
       ["blah Warning: this is disruptive Are you sure? [y/N]", "", ""], []⟩
      " this is disruptive Are you sure? [y/N]"
      rfl rfl rfl (by decide) (by decide)).trans (by decide)

/-- C6 (confirmed): the structured-output skeleton sends the command and
parses once; when the first parse fails it re-sends and re-parses
exactly once more, the overall result being that second parse (`none`,
the Malformed-Output error, when it fails too) — exactly two channel
reads happen, never a third, and no partially parsed value can be
returned. -/
theorem structured_retry_once {J : Type} (parse : String → Option J)
    (command : String) (w : World)
    (h : parse (w.resps.headD "") = none) :
    fetch_structured parse command w =
      (parse (w.resps.tail.headD ""),
       { w with resps := w.resps.tail.tail,
                sent := w.sent ++ [command, command] }) := by
  obtain ⟨sess, resps, sentl⟩ := w
  cases resps with
  | nil =>
    have h' : parse "" = none := by simpa using h
    simp [fetch_structured, send_command, h']
  | cons r rs =>
    have h' : parse r = none := by simpa using h
    simp [fetch_structured, send_command, h']

/-- Witness for C6: both reads fail to parse; the result is the error and
exactly two sends of the command occurred. -/
theorem structured_retry_once_witness :
    fetch_structured (fun s => if s = "{}" then some 0 else none)
        "net show interface all json"
        ⟨⟨false, false, false, false⟩, ["junk", "junk2"], []⟩
      = (none,
         ⟨⟨false, false, false, false⟩, [],
          ["net show interface all json", "net show interface all json"]⟩) :=
  (structured_retry_once (fun s => if s = "{}" then some 0 else none)
      "net show interface all json"
      ⟨⟨false, false, false, false⟩, ["junk", "junk2"], []⟩
      (by decide)).trans (by decide)

/-- C10 (confirmed): a rollback that completes normally leaves `changed`
false, so a second rollback with no intervening commit is a no-op that
sends nothing: at most one rollback is executed per committed change. -/
theorem rollback_resets_changed (w : World)
    (h : (rollback w).1 = RollbackResult.ok) :
    (rollback w).2.session.changed = false
    ∧ rollback ((rollback w).2) = (RollbackResult.ok, (rollback w).2) := by
  have hc : (rollback w).2.session.changed = false := by
    obtain ⟨sess, resps, sentl⟩ := w
    by_cases hch : sess.changed = true
    · by_cases hnv : sess.use_nvue = true
      · cases e1 : (splitlines (resps.head?.getD ""))[1]? with
        | none =>
          simp [rollback, send_command, hch, hnv, e1] at h
        | some line =>
          cases e2 : (pySplitWs line)[1]? with
          | none =>
            simp [rollback, send_command, hch, hnv, e1, e2] at h
          | some field =>
            simp [rollback, send_command, hch, hnv, e1, e2]
      · simp only [Bool.not_eq_true] at hnv
        simp [rollback, send_command, hch, hnv]
    · simp only [Bool.not_eq_true] at hch
      simp [rollback, hch]
  exact ⟨hc, rollback_of_not_changed _ hc⟩

/-- Witness for C10: a successful NVUE rollback, after which a second
rollback does nothing. -/
theorem rollback_resets_changed_witness :
    (rollback ⟨⟨true, false, false, true⟩,
        ["rev_id: 6\nrev_id: 5\n", "applied"], []⟩).2.session.changed = false
    ∧ rollback ((rollback ⟨⟨true, false, false, true⟩,
          ["rev_id: 6\nrev_id: 5\n", "applied"], []⟩).2)
        = (RollbackResult.ok,
           (rollback ⟨⟨true, false, false, true⟩,
              ["rev_id: 6\nrev_id: 5\n", "applied"], []⟩).2) :=
  rollback_resets_changed
    ⟨⟨true, false, false, true⟩, ["rev_id: 6\nrev_id: 5\n", "applied"], []⟩
    (by decide)

end Cumulus
